import Mathlib

/-!
Shallow embedding of the `rocket-webhook` signature-verification engine.

Bytes are modelled as natural numbers, byte strings as `List Nat`.  The
cryptographic primitives (HMAC-SHA256, Ed25519, ECDSA-P256) are external
trusted library calls in the source, so they are modelled as function
parameters: an HMAC is a function from key and message to digest, and a
public-key check is a function from key, message and signature to `Bool`.
The incremental `Mac::update` contract is modelled by concatenating the
fed byte chunks into the message that is finally digested.

Rust `Outcome<'_, T, WebhookError>` values are embedded as
`Except (Nat × WebhookError) T`: the `Nat` is the HTTP status code paired
with the error at each `Outcome::Error((status, error))` site.
-/

namespace RocketWebhook

/-- Errors from `src/error.rs` (`WebhookError`). -/
inductive WebhookError where
  | signature (detail : String)
  | missingHeader (name : String)
  | invalidHeader (detail : String)
  | timestamp (value : String)
  | deserialize (detail : String)
  | read (detail : String)
  | notAttached
  deriving DecidableEq, Repr

/-- An `Outcome` is success or an HTTP status paired with a `WebhookError`. -/
abbrev Outcome (α : Type) := Except (Nat × WebhookError) α

instance {ε α : Type} [DecidableEq ε] [DecidableEq α] : DecidableEq (Except ε α) :=
  fun a b =>
    match a, b with
    | .ok x, .ok y =>
      if h : x = y then isTrue (by rw [h]) else isFalse (by intro hc; cases hc; exact h rfl)
    | .error x, .error y =>
      if h : x = y then isTrue (by rw [h]) else isFalse (by intro hc; cases hc; exact h rfl)
    | .ok _, .error _ => isFalse (by intro hc; cases hc)
    | .error _, .ok _ => isFalse (by intro hc; cases hc)

/-- UTF-8 encoding of one character, mirroring Rust `str::as_bytes`. -/
def utf8Char (c : Char) : List Nat :=
  let n := c.toNat
  if n < 128 then [n]
  else if n < 2048 then [192 + n / 64, 128 + n % 64]
  else if n < 65536 then [224 + n / 4096, 128 + (n / 64) % 64, 128 + n % 64]
  else [240 + n / 262144, 128 + (n / 4096) % 64, 128 + (n / 64) % 64, 128 + n % 64]

/-- The UTF-8 bytes of a string (Rust `str::as_bytes`). -/
def strBytes (s : String) : List Nat :=
  (s.data.map utf8Char).flatten

/-- The header map of one request: name/value pairs in arrival order. -/
abbrev Headers := List (String × String)

/-- ASCII lower-casing of one character (Rocket compares header names with
ASCII-case-insensitive equality). -/
def asciiLower (c : Char) : Char :=
  if 'A' ≤ c ∧ c ≤ 'Z' then Char.ofNat (c.toNat + 32) else c

/-- ASCII-case-insensitive header-name equality (Rocket `Uncased`). -/
def nameEq (a b : String) : Bool :=
  a.data.map asciiLower == b.data.map asciiLower

/-- Rocket `HeaderMap::get_one`: case-insensitive lookup returning the first
value when several headers share the name (external collaborator contract). -/
def getOne (headers : Headers) (name : String) : Option String :=
  (headers.find? (fun p => nameEq p.1 name)).map (fun p => p.2)

/-- Rust `str::strip_prefix`: drop `pre` from the front of `s` when present. -/
def stripPre (s pre : String) : Option String :=
  if pre.data.isPrefixOf s.data then some ⟨s.data.drop pre.data.length⟩ else none

/-- `Webhook::get_header` (src/src/webhooks.rs lines 42-61): fetch a required
header, optionally stripping a fixed leading literal; absent header is a
`MissingHeader` error and a wrong leading literal is an `InvalidHeader` error,
both paired with HTTP 400. -/
def get_header (headers : Headers) (name : String) (pre : Option String) :
    Outcome String :=
  match getOne headers name with
  | some value =>
    match pre with
    | none => .ok value
    | some p =>
      match stripPre value p with
      | some stripped => .ok stripped
      | none => .error (400, .invalidHeader name)
  | none => .error (400, .missingHeader name)

/-- Rust `str::parse::<u32>` restricted to plain digit strings: the decimal
value of a non-empty all-digit string, `none` otherwise. -/
def parseNat (s : String) : Option Nat :=
  if s.data = [] then none
  else if s.data.all (fun c => '0' ≤ c ∧ c ≤ '9') then
    some (s.data.foldl (fun acc c => acc * 10 + (c.toNat - 48)) 0)
  else none

/-- Modelled from the spec: `Webhook::validate_timestamp` is not present under
src/ (only its callers in the built-in adapters are).  Spec section 4.2: given
a timestamp string and bounds `(min, max)`, parse as an unsigned integer; fail
with `Timestamp` error if parsing fails or the value falls outside
`[min, max]` inclusive. -/
def validate_timestamp (timestamp : String) (time_bounds : Nat × Nat) :
    Outcome Unit :=
  match parseNat timestamp with
  | some t =>
    if time_bounds.1 ≤ t ∧ t ≤ time_bounds.2 then .ok ()
    else .error (400, .timestamp timestamp)
  | none => .error (400, .timestamp timestamp)

/-- One hex digit (crate `hex`). -/
def hexDigit (c : Char) : Option Nat :=
  if '0' ≤ c ∧ c ≤ '9' then some (c.toNat - 48)
  else if 'a' ≤ c ∧ c ≤ 'f' then some (c.toNat - 87)
  else if 'A' ≤ c ∧ c ≤ 'F' then some (c.toNat - 55)
  else none

/-- Decode a char list two hex digits at a time (odd length fails). -/
def hexPairs : List Char → Option (List Nat)
  | [] => some []
  | [_] => none
  | c1 :: c2 :: rest =>
    match hexDigit c1, hexDigit c2, hexPairs rest with
    | some h, some l, some tail => some ((16 * h + l) :: tail)
    | _, _, _ => none

/-- `hex::decode`: even-length hex string to bytes. -/
def hex_decode (s : String) : Option (List Nat) :=
  hexPairs s.data

/-- One base64 digit of the standard alphabet (crate `base64`). -/
def b64Digit (c : Char) : Option Nat :=
  if 'A' ≤ c ∧ c ≤ 'Z' then some (c.toNat - 65)
  else if 'a' ≤ c ∧ c ≤ 'z' then some (c.toNat - 71)
  else if '0' ≤ c ∧ c ≤ '9' then some (c.toNat + 4)
  else if c = '+' then some 62
  else if c = '/' then some 63
  else none

/-- Decode char groups of four with canonical `=` padding at the end
(`BASE64_STANDARD.decode`). -/
def b64Groups : List Char → Option (List Nat)
  | [] => some []
  | c1 :: c2 :: c3 :: c4 :: rest =>
    match b64Digit c1, b64Digit c2 with
    | some a, some b =>
      if c3 = '=' then
        if c4 = '=' ∧ rest = [] ∧ b % 16 = 0 then some [a * 4 + b / 16] else none
      else
        match b64Digit c3 with
        | some c =>
          if c4 = '=' then
            if rest = [] ∧ c % 4 = 0 then some [a * 4 + b / 16, b % 16 * 16 + c / 4]
            else none
          else
            match b64Digit c4, b64Groups rest with
            | some d, some tail =>
              some ((a * 4 + b / 16) :: (b % 16 * 16 + c / 4) :: (c % 4 * 64 + d) :: tail)
            | _, _ => none
        | none => none
    | _, _ => none
  | _ => none

/-- `BASE64_STANDARD.decode` on a string. -/
def base64_decode (s : String) : Option (List Nat) :=
  b64Groups s.data

/-- Rust `str::split(sep)`: split at every occurrence of `sep`, keeping empty
parts (working on the char list). -/
def splitCharAux (sep : Char) : List Char → List Char → List (List Char)
  | [], acc => [acc.reverse]
  | c :: rest, acc =>
    if c = sep then acc.reverse :: splitCharAux sep rest []
    else splitCharAux sep rest (c :: acc)

/-- Rust `str::split(sep)` on a string, as a list of strings. -/
def splitStr (s : String) (sep : Char) : List String :=
  (splitCharAux sep s.data []).map (fun l => ⟨l⟩)

/-- One chunk yielded by the body stream: bytes, or an I/O read error. -/
abbrev Chunk := Except String (List Nat)

/-- The `while let` read loop shared by both verifiers: concatenate the
streamed chunks; the first read error is fatal. -/
def read_chunks : List Chunk → Except String (List Nat)
  | [] => .ok []
  | .ok c :: rest =>
    match read_chunks rest with
    | .ok b => .ok (c ++ b)
    | .error e => .error e
  | .error e :: _ => .error e

/-- A webhook implementing the `WebhookHmac` trait: the secret key plus the
two provider hooks `expected_signatures` and `body_prefix` (the latter is
named `body_pre` here). -/
structure HmacWebhook where
  secret_key : List Nat
  expected_signatures : Headers → Outcome (List (List Nat))
  body_pre : Headers → Nat × Nat → Outcome (Option (List Nat))

/-- `WebhookHmac::validate_with_hmac` (src/src/webhooks/interface/hmac.rs
lines 40-91): obtain the expected signatures, feed the optional provider
prefix and then every body chunk into the MAC while accumulating the raw
body, and compare the finalized digest against every expected signature;
the raw body is returned on the first match, otherwise the outcome is a
`Signature` error paired with HTTP 401.  A chunk read error is a `Read`
error paired with HTTP 400.  `mac` is the trusted HMAC primitive
(key and accumulated message to digest). -/
def validate_with_hmac (mac : List Nat → List Nat → List Nat)
    (w : HmacWebhook) (headers : Headers) (body : List Chunk)
    (time_bounds : Nat × Nat) : Outcome (List Nat) :=
  match w.expected_signatures headers with
  | .error e => .error e
  | .ok sigs =>
    match w.body_pre headers time_bounds with
    | .error e => .error e
    | .ok preOpt =>
      match read_chunks body with
      | .error e => .error (400, .read e)
      | .ok raw_body =>
        -- body_sig = mac.finalize() over prefix ++ streamed chunks
        if sigs.any (fun s => s == mac w.secret_key (preOpt.getD [] ++ raw_body)) then
          .ok raw_body
        else .error (401, .signature "HMAC did not match any provided signature")

/-- A webhook implementing the `WebhookPublicKey` trait: the three provider
hooks `expected_signature`, `public_key` and `message_to_verify` (the
time-bounds argument of `message_to_verify` follows the live trait as
implemented by `DiscordWebhook::message_to_verify`). -/
structure PublicKeyWebhook where
  expected_signature : Headers → Outcome (List Nat)
  public_key : Headers → Outcome (List Nat)
  message_to_verify : Headers → List Nat → Nat × Nat → Outcome (List Nat)

/-- `WebhookPublicKey` validation (src/src/webhooks/interface/public_key.rs
lines 48-78): obtain the expected signature and the public key, materialize
the whole body (a read error is a `Read` error paired with HTTP 400), build
the provider message from it, and delegate to the algorithm; an algorithm
failure is a `Signature` error paired with HTTP 401, success returns the raw
body.  `verify` is the trusted asymmetric primitive
(key, message and signature to accept or reject). -/
def validate_with_public_key (verify : List Nat → List Nat → List Nat → Bool)
    (w : PublicKeyWebhook) (headers : Headers) (body : List Chunk)
    (time_bounds : Nat × Nat) : Outcome (List Nat) :=
  match w.expected_signature headers with
  | .error e => .error e
  | .ok expected =>
    match w.public_key headers with
    | .error e => .error e
    | .ok key =>
      match read_chunks body with
      | .error e => .error (400, .read e)
      | .ok raw_body =>
        match w.message_to_verify headers raw_body time_bounds with
        | .error e => .error e
        | .ok message =>
          if verify key message expected then .ok raw_body
          else .error (401, .signature "Invalid signature")

/-!  Built-in provider adapters (src/src/webhooks/built_in/).  -/

/-- `GitHubWebhook::expected_signatures` (github.rs lines 47-58): hex
signature in `X-Hub-Signature-256` behind the literal `sha256=`. -/
def github_expected_signatures (headers : Headers) : Outcome (List (List Nat)) :=
  match get_header headers "X-Hub-Signature-256" (some "sha256=") with
  | .error e => .error e
  | .ok sig_header =>
    match hex_decode sig_header with
    | some bytes => .ok [bytes]
    | none => .error (400, .invalidHeader "X-Hub-Signature-256 header was not valid hex")

/-- `GitHubWebhook` as an `HmacWebhook` (raw body, no message pre-bytes). -/
def GitHubWebhook (secret : List Nat) : HmacWebhook :=
  { secret_key := secret
    expected_signatures := github_expected_signatures
    body_pre := fun _ _ => .ok none }

/-- `ShopifyWebhook::expected_signatures` (shopify.rs lines 48-59): base64
signature in `X-Shopify-Hmac-Sha256`. -/
def shopify_expected_signatures (headers : Headers) : Outcome (List (List Nat)) :=
  match get_header headers "X-Shopify-Hmac-Sha256" none with
  | .error e => .error e
  | .ok sig_header =>
    match base64_decode sig_header with
    | some bytes => .ok [bytes]
    | none => .error (400, .invalidHeader "X-Shopify-Hmac-Sha256 header was not valid base64")

/-- `ShopifyWebhook` as an `HmacWebhook`. -/
def ShopifyWebhook (secret : List Nat) : HmacWebhook :=
  { secret_key := secret
    expected_signatures := shopify_expected_signatures
    body_pre := fun _ _ => .ok none }

/-- `SlackWebhook::expected_signatures` (slack.rs lines 50-61): hex signature
in `X-Slack-Signature` behind the literal `v0=`. -/
def slack_expected_signatures (headers : Headers) : Outcome (List (List Nat)) :=
  match get_header headers "X-Slack-Signature" (some "v0=") with
  | .error e => .error e
  | .ok sig_header =>
    match hex_decode sig_header with
    | some bytes => .ok [bytes]
    | none => .error (400, .invalidHeader "X-Slack-Signature header was not valid hex")

/-- `SlackWebhook::body_prefix` (slack.rs lines 63-74): the timestamp header
is required and validated, and the MAC message starts with
`v0:<timestamp>:`. -/
def slack_body_pre (headers : Headers) (time_bounds : Nat × Nat) :
    Outcome (Option (List Nat)) :=
  match get_header headers "X-Slack-Request-Timestamp" none with
  | .error e => .error e
  | .ok timestamp =>
    match validate_timestamp timestamp time_bounds with
    | .error e => .error e
    | .ok _ => .ok (some (strBytes "v0:" ++ strBytes timestamp ++ strBytes ":"))

/-- `SlackWebhook` as an `HmacWebhook`. -/
def SlackWebhook (secret : List Nat) : HmacWebhook :=
  { secret_key := secret
    expected_signatures := slack_expected_signatures
    body_pre := slack_body_pre }

/-- The shared decode loop of the multi-signature providers: decode every
extracted rotation candidate; the first decode failure is an `InvalidHeader`
error paired with HTTP 400 (`for .. in .. { match decode { .. } }`). -/
def decode_candidates (dec : String → Option (List Nat)) (errDetail : String) :
    List String → Outcome (List (List Nat))
  | [] => .ok []
  | s :: rest =>
    match dec s with
    | some bytes =>
      match decode_candidates dec errDetail rest with
      | .ok sigs => .ok (bytes :: sigs)
      | .error e => .error e
    | none => .error (400, .invalidHeader errDetail)

/-- `StripeWebhook::expected_signatures` (stripe.rs lines 52-70): split the
`Stripe-Signature` header at commas and hex-decode every part behind the
literal `v1=`. -/
def stripe_expected_signatures (headers : Headers) : Outcome (List (List Nat)) :=
  match get_header headers "Stripe-Signature" none with
  | .error e => .error e
  | .ok header =>
    decode_candidates hex_decode "Signature in Stripe-Signature header was not valid hex"
      ((splitStr header ',').filterMap (fun s => stripPre s "v1="))

/-- `StripeWebhook::body_prefix` (stripe.rs lines 72-93): find the first
comma-separated part behind `t=`, validate it as the timestamp, and start the
MAC message with `<timestamp>.`. -/
def stripe_body_pre (headers : Headers) (time_bounds : Nat × Nat) :
    Outcome (Option (List Nat)) :=
  match get_header headers "Stripe-Signature" none with
  | .error e => .error e
  | .ok sig_header =>
    match (splitStr sig_header ',').findSome? (fun part => stripPre part "t=") with
    | none => .error (400, .invalidHeader "Did not find timestamp in Stripe-Signature header")
    | some timestamp =>
      match validate_timestamp timestamp time_bounds with
      | .error e => .error e
      | .ok _ => .ok (some (strBytes timestamp ++ strBytes "."))

/-- `StripeWebhook` as an `HmacWebhook`. -/
def StripeWebhook (secret : List Nat) : HmacWebhook :=
  { secret_key := secret
    expected_signatures := stripe_expected_signatures
    body_pre := stripe_body_pre }

/-- `SvixWebhook::expected_signatures` (svix.rs lines 79-100): split the
`svix-signature` header at spaces and base64-decode every part behind the
literal `v1,`. -/
def svix_expected_signatures (headers : Headers) : Outcome (List (List Nat)) :=
  match get_header headers "svix-signature" none with
  | .error e => .error e
  | .ok header =>
    decode_candidates base64_decode "Signature in svix-signature header was not valid base64"
      ((splitStr header ' ').filterMap (fun s => stripPre s "v1,"))

/-- `SvixWebhook::body_prefix` (svix.rs lines 66-77): the `svix-id` and
`svix-timestamp` headers are required, the timestamp is validated, and the
MAC message starts with `<id>.<timestamp>.`. -/
def svix_body_pre (headers : Headers) (time_bounds : Nat × Nat) :
    Outcome (Option (List Nat)) :=
  match get_header headers "svix-id" none with
  | .error e => .error e
  | .ok id =>
    match get_header headers "svix-timestamp" none with
    | .error e => .error e
    | .ok timestamp =>
      match validate_timestamp timestamp time_bounds with
      | .error e => .error e
      | .ok _ =>
        .ok (some (strBytes id ++ strBytes "." ++ strBytes timestamp ++ strBytes "."))

/-- `SvixWebhook` as an `HmacWebhook`. -/
def SvixWebhook (secret : List Nat) : HmacWebhook :=
  { secret_key := secret
    expected_signatures := svix_expected_signatures
    body_pre := svix_body_pre }

/-- The three configurable header names of `StandardWebhook`
(standard.rs lines 27-49; `with_secret` uses `webhook-id`,
`webhook-timestamp`, `webhook-signature`). -/
structure StandardConfig where
  id_header : String
  time_header : String
  sig_header : String
  deriving DecidableEq

/-- The default `webhook-` header names of `StandardWebhook::with_secret`. -/
def standardDefault : StandardConfig :=
  { id_header := "webhook-id"
    time_header := "webhook-timestamp"
    sig_header := "webhook-signature" }

/-- `StandardWebhook::expected_signatures` (standard.rs lines 102-122): split
the configured signature header at spaces and base64-decode every part behind
the literal `v1,`. -/
def standard_expected_signatures (cfg : StandardConfig) (headers : Headers) :
    Outcome (List (List Nat)) :=
  match get_header headers cfg.sig_header none with
  | .error e => .error e
  | .ok header =>
    decode_candidates base64_decode "Signature in configured header was not valid base64"
      ((splitStr header ' ').filterMap (fun s => stripPre s "v1,"))

/-- `StandardWebhook::body_prefix` (standard.rs lines 89-100): the configured
id and timestamp headers are required, the timestamp is validated, and the
MAC message starts with `<id>.<timestamp>.`. -/
def standard_body_pre (cfg : StandardConfig) (headers : Headers)
    (time_bounds : Nat × Nat) : Outcome (Option (List Nat)) :=
  match get_header headers cfg.id_header none with
  | .error e => .error e
  | .ok id =>
    match get_header headers cfg.time_header none with
    | .error e => .error e
    | .ok timestamp =>
      match validate_timestamp timestamp time_bounds with
      | .error e => .error e
      | .ok _ =>
        .ok (some (strBytes id ++ strBytes "." ++ strBytes timestamp ++ strBytes "."))

/-- `StandardWebhook` as an `HmacWebhook`. -/
def StandardWebhook (secret : List Nat) (cfg : StandardConfig) : HmacWebhook :=
  { secret_key := secret
    expected_signatures := standard_expected_signatures cfg
    body_pre := standard_body_pre cfg }

/-- `DiscordWebhook::expected_signature` (discord.rs lines 61-72): hex
signature in `X-Signature-Ed25519`. -/
def discord_expected_signature (headers : Headers) : Outcome (List Nat) :=
  match get_header headers "X-Signature-Ed25519" none with
  | .error e => .error e
  | .ok sig_header =>
    match hex_decode sig_header with
    | some bytes => .ok bytes
    | none => .error (400, .invalidHeader "X-Signature-Ed25519 header was not valid hex")

/-- `DiscordWebhook::message_to_verify` (discord.rs lines 74-88): the
`X-Signature-Timestamp` header is required and validated, and the verified
message is `<timestamp>` followed by the body. -/
def discord_message_to_verify (headers : Headers) (body : List Nat)
    (time_bounds : Nat × Nat) : Outcome (List Nat) :=
  match get_header headers "X-Signature-Timestamp" none with
  | .error e => .error e
  | .ok timestamp =>
    match validate_timestamp timestamp time_bounds with
    | .error e => .error e
    | .ok _ => .ok (strBytes timestamp ++ body)

/-- `DiscordWebhook` as a `PublicKeyWebhook` (static in-memory key). -/
def DiscordWebhook (key : List Nat) : PublicKeyWebhook :=
  { expected_signature := discord_expected_signature
    public_key := fun _ => .ok key
    message_to_verify := discord_message_to_verify }

/-- `SendGridWebhook::expected_signature` (sendgrid.rs lines 63-78): base64
signature in `X-Twilio-Email-Event-Webhook-Signature`. -/
def sendgrid_expected_signature (headers : Headers) : Outcome (List Nat) :=
  match get_header headers "X-Twilio-Email-Event-Webhook-Signature" none with
  | .error e => .error e
  | .ok sig_header =>
    match base64_decode sig_header with
    | some bytes => .ok bytes
    | none =>
      .error (400, .invalidHeader
        "X-Twilio-Email-Event-Webhook-Signature header was not valid base64")

/-- `SendGridWebhook::message_to_verify` (sendgrid.rs lines 80-92): the
`X-Twilio-Email-Event-Webhook-Timestamp` header is required and the verified
message is `<timestamp>` followed by the body. -/
def sendgrid_message_to_verify (headers : Headers) (body : List Nat)
    (_time_bounds : Nat × Nat) : Outcome (List Nat) :=
  match get_header headers "X-Twilio-Email-Event-Webhook-Timestamp" none with
  | .error e => .error e
  | .ok timestamp => .ok (strBytes timestamp ++ body)

/-- `SendGridWebhook` as a `PublicKeyWebhook` (static in-memory key). -/
def SendGridWebhook (key : List Nat) : PublicKeyWebhook :=
  { expected_signature := sendgrid_expected_signature
    public_key := fun _ => .ok key
    message_to_verify := sendgrid_message_to_verify }

/-- Modelled from the spec: the live data guard (`WebhookPayload::from_data`
in src/src/guard.rs) is present only as an older variant under src/.  Per
spec sections 4.6 and 7: run the verifier, propagate its status and error on
failure, and on success deserialize the validated bytes, a deserialization
failure being a `Deserialize` error distinct from signature failure and
mapped to a 400-class status. -/
def payload_from_data {α : Type} (mac : List Nat → List Nat → List Nat)
    (w : HmacWebhook) (headers : Headers) (body : List Chunk)
    (time_bounds : Nat × Nat) (deser : List Nat → Option α) : Outcome α :=
  match validate_with_hmac mac w headers body time_bounds with
  | .error e => .error e
  | .ok raw_body =>
    match deser raw_body with
    | some v => .ok v
    | none => .error (400, .deserialize "Failed to deserialize webhook payload")

/-- Test for the `Signature` kind of `WebhookError`. -/
def isSig : WebhookError → Bool
  | .signature _ => true
  | _ => false

/-- Every error either hook of an `HmacWebhook` produces is paired with
HTTP 400 and is not the `Signature` kind. -/
def benignHooks (w : HmacWebhook) : Prop :=
  (∀ headers st e, w.expected_signatures headers = .error (st, e) →
    st = 400 ∧ isSig e = false) ∧
  (∀ headers tb st e, w.body_pre headers tb = .error (st, e) →
    st = 400 ∧ isSig e = false)

/-- Every error any hook of a `PublicKeyWebhook` produces is paired with
HTTP 400 and is not the `Signature` kind. -/
def benignPkHooks (w : PublicKeyWebhook) : Prop :=
  (∀ headers st e, w.expected_signature headers = .error (st, e) →
    st = 400 ∧ isSig e = false) ∧
  (∀ headers st e, w.public_key headers = .error (st, e) →
    st = 400 ∧ isSig e = false) ∧
  (∀ headers raw tb st e, w.message_to_verify headers raw tb = .error (st, e) →
    st = 400 ∧ isSig e = false)

/-!  Helper lemmas.  -/

theorem get_header_none {headers : Headers} {name : String} {pre : Option String}
    (h : getOne headers name = none) :
    get_header headers name pre = .error (400, .missingHeader name) := by
  unfold get_header
  rw [h]

theorem get_header_some {headers : Headers} {name v : String}
    (h : getOne headers name = some v) :
    get_header headers name none = .ok v := by
  unfold get_header
  rw [h]

theorem get_header_err {headers : Headers} {name : String} {pre : Option String}
    {st : Nat} {e : WebhookError}
    (h : get_header headers name pre = .error (st, e)) :
    st = 400 ∧ (e = .missingHeader name ∨ e = .invalidHeader name) := by
  unfold get_header at h
  split at h
  case h_1 =>
    split at h
    · exact absurd h (by simp)
    · split at h
      · exact absurd h (by simp)
      · cases h
        exact ⟨rfl, Or.inr rfl⟩
  case h_2 =>
    cases h
    exact ⟨rfl, Or.inl rfl⟩

theorem validate_timestamp_err {s : String} {tb : Nat × Nat} {st : Nat}
    {e : WebhookError}
    (h : validate_timestamp s tb = .error (st, e)) :
    st = 400 ∧ e = .timestamp s := by
  unfold validate_timestamp at h
  split at h
  · split at h
    · exact absurd h (by simp)
    · cases h; exact ⟨rfl, rfl⟩
  · cases h; exact ⟨rfl, rfl⟩

theorem decode_candidates_err {dec : String → Option (List Nat)} {d : String} :
    ∀ {parts : List String} {st : Nat} {e : WebhookError},
      decode_candidates dec d parts = .error (st, e) →
      st = 400 ∧ e = .invalidHeader d := by
  intro parts
  induction parts with
  | nil => intro st e h; exact absurd h (by simp [decode_candidates])
  | cons s rest ih =>
    intro st e h
    unfold decode_candidates at h
    split at h
    · split at h
      · exact absurd h (by simp)
      · rename_i heq
        cases h
        exact ih heq
    · cases h; exact ⟨rfl, rfl⟩

theorem decode_candidates_fail {dec : String → Option (List Nat)} {d : String} :
    ∀ {parts : List String}, (∃ s ∈ parts, dec s = none) →
      decode_candidates dec d parts = .error (400, .invalidHeader d) := by
  intro parts
  induction parts with
  | nil => rintro ⟨s, hs, _⟩; cases hs
  | cons x rest ih =>
    rintro ⟨s, hs, hdec⟩
    unfold decode_candidates
    rcases List.mem_cons.mp hs with rfl | hmem
    · rw [hdec]
    · cases hx : dec x with
      | none => rfl
      | some bytes =>
        rw [ih ⟨s, hmem, hdec⟩]

theorem validate_hmac_sig_err {mac : List Nat → List Nat → List Nat}
    {w : HmacWebhook} {headers : Headers} {body : List Chunk}
    {tb : Nat × Nat} {e : Nat × WebhookError}
    (h : w.expected_signatures headers = .error e) :
    validate_with_hmac mac w headers body tb = .error e := by
  unfold validate_with_hmac
  rw [h]

theorem validate_hmac_pre_err {mac : List Nat → List Nat → List Nat}
    {w : HmacWebhook} {headers : Headers} {body : List Chunk}
    {tb : Nat × Nat} {sigs : List (List Nat)} {e : Nat × WebhookError}
    (hsig : w.expected_signatures headers = .ok sigs)
    (hpre : w.body_pre headers tb = .error e) :
    validate_with_hmac mac w headers body tb = .error e := by
  unfold validate_with_hmac
  rw [hsig, hpre]

theorem validate_hmac_read_err {mac : List Nat → List Nat → List Nat}
    {w : HmacWebhook} {headers : Headers} {body : List Chunk}
    {tb : Nat × Nat} {sigs : List (List Nat)} {preOpt : Option (List Nat)}
    {e : String}
    (hsig : w.expected_signatures headers = .ok sigs)
    (hpre : w.body_pre headers tb = .ok preOpt)
    (hread : read_chunks body = .error e) :
    validate_with_hmac mac w headers body tb = .error (400, .read e) := by
  unfold validate_with_hmac
  rw [hsig, hpre, hread]

theorem validate_hmac_ok_iff {mac : List Nat → List Nat → List Nat}
    {w : HmacWebhook} {headers : Headers} {body : List Chunk}
    {tb : Nat × Nat} {sigs : List (List Nat)} {preOpt : Option (List Nat)}
    {raw : List Nat}
    (hsig : w.expected_signatures headers = .ok sigs)
    (hpre : w.body_pre headers tb = .ok preOpt)
    (hread : read_chunks body = .ok raw) :
    validate_with_hmac mac w headers body tb = .ok raw ↔
      mac w.secret_key (preOpt.getD [] ++ raw) ∈ sigs := by
  unfold validate_with_hmac
  simp only [hsig, hpre, hread]
  have hany : ((sigs.any fun s => s == mac w.secret_key (preOpt.getD [] ++ raw)) = true)
      ↔ mac w.secret_key (preOpt.getD [] ++ raw) ∈ sigs := by
    simp [List.any_eq_true, beq_iff_eq]
  split
  · rename_i ha
    exact ⟨fun _ => hany.mp ha, fun _ => rfl⟩
  · rename_i ha
    constructor
    · intro hc; exact absurd hc (by simp)
    · intro hmem
      exact absurd (hany.mpr hmem) ha

theorem validate_hmac_nomatch {mac : List Nat → List Nat → List Nat}
    {w : HmacWebhook} {headers : Headers} {body : List Chunk}
    {tb : Nat × Nat} {sigs : List (List Nat)} {preOpt : Option (List Nat)}
    {raw : List Nat}
    (hsig : w.expected_signatures headers = .ok sigs)
    (hpre : w.body_pre headers tb = .ok preOpt)
    (hread : read_chunks body = .ok raw)
    (hnm : mac w.secret_key (preOpt.getD [] ++ raw) ∉ sigs) :
    validate_with_hmac mac w headers body tb =
      .error (401, .signature "HMAC did not match any provided signature") := by
  unfold validate_with_hmac
  simp only [hsig, hpre, hread]
  split
  · rename_i ha
    simp only [List.any_eq_true, beq_iff_eq] at ha
    obtain ⟨x, hx, rfl⟩ := ha
    exact absurd hx hnm
  · rfl

theorem validate_hmac_ok_reads {mac : List Nat → List Nat → List Nat}
    {w : HmacWebhook} {headers : Headers} {body : List Chunk}
    {tb : Nat × Nat} {r : List Nat}
    (h : validate_with_hmac mac w headers body tb = .ok r) :
    read_chunks body = .ok r := by
  unfold validate_with_hmac at h
  split at h
  · exact absurd h (by simp)
  · split at h
    · exact absurd h (by simp)
    · split at h
      · exact absurd h (by simp)
      · rename_i hread
        split at h
        · cases h; exact hread
        · exact absurd h (by simp)

theorem validate_pk_ok_reads {verify : List Nat → List Nat → List Nat → Bool}
    {w : PublicKeyWebhook} {headers : Headers} {body : List Chunk}
    {tb : Nat × Nat} {r : List Nat}
    (h : validate_with_public_key verify w headers body tb = .ok r) :
    read_chunks body = .ok r := by
  unfold validate_with_public_key at h
  split at h
  · exact absurd h (by simp)
  · split at h
    · exact absurd h (by simp)
    · split at h
      · exact absurd h (by simp)
      · rename_i hread
        split at h
        · exact absurd h (by simp)
        · split at h
          · cases h; exact hread
          · exact absurd h (by simp)

theorem read_chunks_map_ok : ∀ chunks : List (List Nat),
    read_chunks (chunks.map Except.ok) = .ok chunks.flatten := by
  intro chunks
  induction chunks with
  | nil => rfl
  | cons c rest ih =>
    show read_chunks (.ok c :: rest.map Except.ok) = _
    unfold read_chunks
    rw [ih]
    rfl

theorem validate_pk_sig_err {verify : List Nat → List Nat → List Nat → Bool}
    {w : PublicKeyWebhook} {headers : Headers} {body : List Chunk}
    {tb : Nat × Nat} {e : Nat × WebhookError}
    (h : w.expected_signature headers = .error e) :
    validate_with_public_key verify w headers body tb = .error e := by
  unfold validate_with_public_key
  rw [h]

theorem validate_pk_read_err {verify : List Nat → List Nat → List Nat → Bool}
    {w : PublicKeyWebhook} {headers : Headers} {body : List Chunk}
    {tb : Nat × Nat} {sig key : List Nat} {e : String}
    (hsig : w.expected_signature headers = .ok sig)
    (hkey : w.public_key headers = .ok key)
    (hread : read_chunks body = .error e) :
    validate_with_public_key verify w headers body tb = .error (400, .read e) := by
  unfold validate_with_public_key
  rw [hsig, hkey, hread]

theorem validate_pk_msg_err {verify : List Nat → List Nat → List Nat → Bool}
    {w : PublicKeyWebhook} {headers : Headers} {body : List Chunk}
    {tb : Nat × Nat} {sig key raw : List Nat} {e : Nat × WebhookError}
    (hsig : w.expected_signature headers = .ok sig)
    (hkey : w.public_key headers = .ok key)
    (hread : read_chunks body = .ok raw)
    (hmsg : w.message_to_verify headers raw tb = .error e) :
    validate_with_public_key verify w headers body tb = .error e := by
  unfold validate_with_public_key
  simp only [hsig, hkey, hread, hmsg]

/-!  Claim theorems.  -/

/-- C1: for every HMAC provider and every request whose signature extraction,
message-prefix construction and body read succeed, `validate_with_hmac`
succeeds (returning the body) if and only if the finalized MAC digest over
prefix-then-body equals at least one member of the decoded expected-signature
set; when no member matches it fails with a `Signature` error.  In particular
a multi-signature candidate set with exactly one matching member succeeds and
a set with no matching member fails (see the Stripe witness). -/
theorem hmac_success_iff_digest_matches_any
    (mac : List Nat → List Nat → List Nat) (w : HmacWebhook) (headers : Headers)
    (body : List Chunk) (tb : Nat × Nat) (sigs : List (List Nat))
    (preOpt : Option (List Nat)) (raw : List Nat)
    (hsig : w.expected_signatures headers = .ok sigs)
    (hpre : w.body_pre headers tb = .ok preOpt)
    (hread : read_chunks body = .ok raw) :
    (validate_with_hmac mac w headers body tb = .ok raw ↔
      mac w.secret_key (preOpt.getD [] ++ raw) ∈ sigs) ∧
    (mac w.secret_key (preOpt.getD [] ++ raw) ∉ sigs →
      validate_with_hmac mac w headers body tb =
        .error (401, .signature "HMAC did not match any provided signature")) :=
  ⟨validate_hmac_ok_iff hsig hpre hread, validate_hmac_nomatch hsig hpre hread⟩

/-- Witness for C1: a Stripe request carrying two rotation candidates of
which exactly the second matches succeeds and returns the body, and the same
request under a key giving a digest matching no candidate fails with the
`Signature` error. -/
theorem hmac_success_iff_digest_matches_any_witness :
    validate_with_hmac (fun _ _ => [1, 2]) (StripeWebhook [9])
        [("Stripe-Signature", "t=5,v1=00,v1=0102")] [.ok [104, 105]] (0, 10) =
      .ok [104, 105] ∧
    validate_with_hmac (fun _ _ => [7]) (StripeWebhook [9])
        [("Stripe-Signature", "t=5,v1=00,v1=0102")] [.ok [104, 105]] (0, 10) =
      .error (401, .signature "HMAC did not match any provided signature") :=
  ⟨((hmac_success_iff_digest_matches_any (fun _ _ => [1, 2]) (StripeWebhook [9])
      [("Stripe-Signature", "t=5,v1=00,v1=0102")] [.ok [104, 105]] (0, 10)
      [[0], [1, 2]] (some [53, 46]) [104, 105] (by decide) (by decide) (by decide)).1).mpr
      (by decide),
    (hmac_success_iff_digest_matches_any (fun _ _ => [7]) (StripeWebhook [9])
      [("Stripe-Signature", "t=5,v1=00,v1=0102")] [.ok [104, 105]] (0, 10)
      [[0], [1, 2]] (some [53, 46]) [104, 105] (by decide) (by decide) (by decide)).2
      (by decide)⟩

/-- C2: for both verifiers, whatever the provider hooks and primitives do, a
successful verification returns exactly the concatenation of the streamed
body chunks: the success value always equals the output of the body read
loop, and the read loop on error-free chunk lists is plain concatenation, so
provider message prefixes never leak into the returned bytes. -/
theorem verified_bytes_equal_streamed_body :
    (∀ (mac : List Nat → List Nat → List Nat) (w : HmacWebhook)
        (headers : Headers) (body : List Chunk) (tb : Nat × Nat) (r : List Nat),
      validate_with_hmac mac w headers body tb = .ok r →
      read_chunks body = .ok r) ∧
    (∀ (verify : List Nat → List Nat → List Nat → Bool) (w : PublicKeyWebhook)
        (headers : Headers) (body : List Chunk) (tb : Nat × Nat) (r : List Nat),
      validate_with_public_key verify w headers body tb = .ok r →
      read_chunks body = .ok r) ∧
    (∀ chunks : List (List Nat),
      read_chunks (chunks.map Except.ok) = .ok chunks.flatten) :=
  ⟨fun _ _ _ _ _ _ h => validate_hmac_ok_reads h,
   fun _ _ _ _ _ _ h => validate_pk_ok_reads h,
   read_chunks_map_ok⟩

/-- Witness for C2: the successful Stripe run and a successful Discord run
from concrete chunk lists return exactly the concatenated chunks. -/
theorem verified_bytes_equal_streamed_body_witness :
    read_chunks [Except.ok [104, 105]] = .ok ([104, 105] : List Nat) ∧
    read_chunks [Except.ok [104]] = .ok ([104] : List Nat) ∧
    read_chunks ([[104], [105]].map Except.ok) = .ok ([104, 105] : List Nat) :=
  ⟨verified_bytes_equal_streamed_body.1 (fun _ _ => [1, 2]) (StripeWebhook [9])
      [("Stripe-Signature", "t=5,v1=00,v1=0102")] [.ok [104, 105]] (0, 10)
      [104, 105] (by decide),
   verified_bytes_equal_streamed_body.2.1 (fun _ _ _ => true) (DiscordWebhook [3])
      [("X-Signature-Ed25519", "00"), ("X-Signature-Timestamp", "5")]
      [.ok [104]] (0, 10) [104] (by decide),
   verified_bytes_equal_streamed_body.2.2 [[104], [105]]⟩

/-- C3: the exact bytes authenticated follow the wire contract: Slack MACs
`v0:` then the timestamp then `:` then the body; Stripe MACs the timestamp
then `.` then the body; Svix and Standard Webhooks MAC the id then `.` then
the timestamp then `.` then the body; and the literals `v0:`, `:` and `.`
are the exact ASCII bytes with nothing else inserted. -/
theorem wire_contract_message_bytes :
    (∀ (mac : List Nat → List Nat → List Nat) (sk : List Nat) (headers : Headers)
        (body : List Chunk) (tb : Nat × Nat) (ts : String)
        (sigs : List (List Nat)) (raw : List Nat),
      getOne headers "X-Slack-Request-Timestamp" = some ts →
      validate_timestamp ts tb = .ok () →
      (SlackWebhook sk).expected_signatures headers = .ok sigs →
      read_chunks body = .ok raw →
      (validate_with_hmac mac (SlackWebhook sk) headers body tb = .ok raw ↔
        mac sk (strBytes "v0:" ++ strBytes ts ++ strBytes ":" ++ raw) ∈ sigs)) ∧
    (∀ (mac : List Nat → List Nat → List Nat) (sk : List Nat) (headers : Headers)
        (body : List Chunk) (tb : Nat × Nat) (hdr ts : String)
        (sigs : List (List Nat)) (raw : List Nat),
      getOne headers "Stripe-Signature" = some hdr →
      (splitStr hdr ',').findSome? (fun part => stripPre part "t=") = some ts →
      validate_timestamp ts tb = .ok () →
      (StripeWebhook sk).expected_signatures headers = .ok sigs →
      read_chunks body = .ok raw →
      (validate_with_hmac mac (StripeWebhook sk) headers body tb = .ok raw ↔
        mac sk (strBytes ts ++ strBytes "." ++ raw) ∈ sigs)) ∧
    (∀ (mac : List Nat → List Nat → List Nat) (sk : List Nat) (headers : Headers)
        (body : List Chunk) (tb : Nat × Nat) (id ts : String)
        (sigs : List (List Nat)) (raw : List Nat),
      getOne headers "svix-id" = some id →
      getOne headers "svix-timestamp" = some ts →
      validate_timestamp ts tb = .ok () →
      (SvixWebhook sk).expected_signatures headers = .ok sigs →
      read_chunks body = .ok raw →
      (validate_with_hmac mac (SvixWebhook sk) headers body tb = .ok raw ↔
        mac sk (strBytes id ++ strBytes "." ++ strBytes ts ++ strBytes "." ++ raw) ∈ sigs)) ∧
    (∀ (cfg : StandardConfig) (mac : List Nat → List Nat → List Nat) (sk : List Nat)
        (headers : Headers) (body : List Chunk) (tb : Nat × Nat) (id ts : String)
        (sigs : List (List Nat)) (raw : List Nat),
      getOne headers cfg.id_header = some id →
      getOne headers cfg.time_header = some ts →
      validate_timestamp ts tb = .ok () →
      (StandardWebhook sk cfg).expected_signatures headers = .ok sigs →
      read_chunks body = .ok raw →
      (validate_with_hmac mac (StandardWebhook sk cfg) headers body tb = .ok raw ↔
        mac sk (strBytes id ++ strBytes "." ++ strBytes ts ++ strBytes "." ++ raw) ∈ sigs)) ∧
    strBytes "v0:" = [118, 48, 58] ∧ strBytes ":" = [58] ∧ strBytes "." = [46] := by
  refine ⟨?_, ?_, ?_, ?_, by decide, by decide, by decide⟩
  · intro mac sk headers body tb ts sigs raw hts hvts hsig hread
    have hpre : (SlackWebhook sk).body_pre headers tb =
        .ok (some (strBytes "v0:" ++ strBytes ts ++ strBytes ":")) := by
      show slack_body_pre headers tb = _
      unfold slack_body_pre
      simp only [get_header_some hts, hvts]
    rw [validate_hmac_ok_iff hsig hpre hread]
    simp [SlackWebhook, List.append_assoc]
  · intro mac sk headers body tb hdr ts sigs raw hhdr hfind hvts hsig hread
    have hpre : (StripeWebhook sk).body_pre headers tb =
        .ok (some (strBytes ts ++ strBytes ".")) := by
      show stripe_body_pre headers tb = _
      unfold stripe_body_pre
      simp only [get_header_some hhdr, hfind, hvts]
    rw [validate_hmac_ok_iff hsig hpre hread]
    simp [StripeWebhook, List.append_assoc]
  · intro mac sk headers body tb id ts sigs raw hid hts hvts hsig hread
    have hpre : (SvixWebhook sk).body_pre headers tb =
        .ok (some (strBytes id ++ strBytes "." ++ strBytes ts ++ strBytes ".")) := by
      show svix_body_pre headers tb = _
      unfold svix_body_pre
      simp only [get_header_some hid, get_header_some hts, hvts]
    rw [validate_hmac_ok_iff hsig hpre hread]
    simp [SvixWebhook, List.append_assoc]
  · intro cfg mac sk headers body tb id ts sigs raw hid hts hvts hsig hread
    have hpre : (StandardWebhook sk cfg).body_pre headers tb =
        .ok (some (strBytes id ++ strBytes "." ++ strBytes ts ++ strBytes ".")) := by
      show standard_body_pre cfg headers tb = _
      unfold standard_body_pre
      simp only [get_header_some hid, get_header_some hts, hvts]
    rw [validate_hmac_ok_iff hsig hpre hread]
    simp [StandardWebhook, List.append_assoc]

/-- Witness for C3: the Slack and Stripe parts applied to concrete requests
(timestamp `5`, body byte `104`, matching constant digests). -/
theorem wire_contract_message_bytes_witness :
    validate_with_hmac (fun _ _ => [1, 2]) (SlackWebhook [9])
        [("X-Slack-Signature", "v0=0102"), ("X-Slack-Request-Timestamp", "5")]
        [.ok [104]] (0, 10) = .ok [104] ∧
    validate_with_hmac (fun _ _ => [1, 2]) (StripeWebhook [9])
        [("Stripe-Signature", "t=5,v1=0102")] [.ok [104]] (0, 10) = .ok [104] :=
  ⟨(wire_contract_message_bytes.1 (fun _ _ => [1, 2]) [9]
      [("X-Slack-Signature", "v0=0102"), ("X-Slack-Request-Timestamp", "5")]
      [.ok [104]] (0, 10) "5" [[1, 2]] [104]
      (by decide) (by decide) (by decide) (by decide)).mpr (by decide),
   (wire_contract_message_bytes.2.1 (fun _ _ => [1, 2]) [9]
      [("Stripe-Signature", "t=5,v1=0102")] [.ok [104]] (0, 10) "t=5,v1=0102" "5"
      [[1, 2]] [104]
      (by decide) (by decide) (by decide) (by decide) (by decide)).mpr (by decide)⟩

/-- C4: for the multi-signature providers (Stripe, Svix, Standard Webhooks),
if any listed rotation candidate in the signature header fails to decode from
its wire encoding (hex for the `v1=` parts of Stripe, base64 for the `v1,`
parts of Svix and Standard), the whole verification fails with an
`InvalidHeader` error: the bad candidate is never skipped, and because the
result is this error for every MAC function and every body, the remaining
candidates are never compared. -/
theorem candidate_decode_failure_is_hard_error :
    (∀ (headers : Headers) (hdr : String) (mac : List Nat → List Nat → List Nat)
        (sk : List Nat) (body : List Chunk) (tb : Nat × Nat),
      getOne headers "Stripe-Signature" = some hdr →
      (∃ s ∈ (splitStr hdr ',').filterMap (fun x => stripPre x "v1="),
        hex_decode s = none) →
      stripe_expected_signatures headers =
        .error (400, .invalidHeader "Signature in Stripe-Signature header was not valid hex") ∧
      validate_with_hmac mac (StripeWebhook sk) headers body tb =
        .error (400, .invalidHeader "Signature in Stripe-Signature header was not valid hex")) ∧
    (∀ (headers : Headers) (hdr : String) (mac : List Nat → List Nat → List Nat)
        (sk : List Nat) (body : List Chunk) (tb : Nat × Nat),
      getOne headers "svix-signature" = some hdr →
      (∃ s ∈ (splitStr hdr ' ').filterMap (fun x => stripPre x "v1,"),
        base64_decode s = none) →
      svix_expected_signatures headers =
        .error (400, .invalidHeader "Signature in svix-signature header was not valid base64") ∧
      validate_with_hmac mac (SvixWebhook sk) headers body tb =
        .error (400, .invalidHeader "Signature in svix-signature header was not valid base64")) ∧
    (∀ (cfg : StandardConfig) (headers : Headers) (hdr : String)
        (mac : List Nat → List Nat → List Nat) (sk : List Nat)
        (body : List Chunk) (tb : Nat × Nat),
      getOne headers cfg.sig_header = some hdr →
      (∃ s ∈ (splitStr hdr ' ').filterMap (fun x => stripPre x "v1,"),
        base64_decode s = none) →
      standard_expected_signatures cfg headers =
        .error (400, .invalidHeader "Signature in configured header was not valid base64") ∧
      validate_with_hmac mac (StandardWebhook sk cfg) headers body tb =
        .error (400, .invalidHeader "Signature in configured header was not valid base64")) := by
  refine ⟨?_, ?_, ?_⟩
  · intro headers hdr mac sk body tb hhdr hbad
    have hsig : stripe_expected_signatures headers =
        .error (400, .invalidHeader "Signature in Stripe-Signature header was not valid hex") := by
      unfold stripe_expected_signatures
      simp only [get_header_some hhdr]
      exact decode_candidates_fail hbad
    exact ⟨hsig, validate_hmac_sig_err hsig⟩
  · intro headers hdr mac sk body tb hhdr hbad
    have hsig : svix_expected_signatures headers =
        .error (400, .invalidHeader "Signature in svix-signature header was not valid base64") := by
      unfold svix_expected_signatures
      simp only [get_header_some hhdr]
      exact decode_candidates_fail hbad
    exact ⟨hsig, validate_hmac_sig_err hsig⟩
  · intro cfg headers hdr mac sk body tb hhdr hbad
    have hsig : standard_expected_signatures cfg headers =
        .error (400, .invalidHeader "Signature in configured header was not valid base64") := by
      unfold standard_expected_signatures
      simp only [get_header_some hhdr]
      exact decode_candidates_fail hbad
    exact ⟨hsig, validate_hmac_sig_err hsig⟩

/-- Witness for C4: a Stripe header whose second rotation candidate `zz` is
not hex makes the whole verification fail with `InvalidHeader`, even though
the first candidate is well-formed. -/
theorem candidate_decode_failure_is_hard_error_witness :
    stripe_expected_signatures [("Stripe-Signature", "t=5,v1=0102,v1=zz")] =
      .error (400, .invalidHeader "Signature in Stripe-Signature header was not valid hex") ∧
    validate_with_hmac (fun _ _ => [1, 2]) (StripeWebhook [9])
        [("Stripe-Signature", "t=5,v1=0102,v1=zz")] [.ok [104]] (0, 10) =
      .error (400, .invalidHeader "Signature in Stripe-Signature header was not valid hex") :=
  candidate_decode_failure_is_hard_error.1
    [("Stripe-Signature", "t=5,v1=0102,v1=zz")] "t=5,v1=0102,v1=zz"
    (fun _ _ => [1, 2]) [9] [.ok [104]] (0, 10) (by decide) (by decide)

/-- C5: the timestamp validator parses the string as an unsigned integer and
fails with a `Timestamp` error exactly when parsing fails or the parsed value
lies outside the closed interval from `lo` to `hi`; the two endpoints
themselves are accepted (the bounds are inclusive). -/
theorem timestamp_validator_contract :
    ∀ (s : String) (lo hi : Nat),
      (validate_timestamp s (lo, hi) = .ok () ↔
        ∃ t, parseNat s = some t ∧ lo ≤ t ∧ t ≤ hi) ∧
      (validate_timestamp s (lo, hi) = .ok () ∨
        validate_timestamp s (lo, hi) = .error (400, .timestamp s)) ∧
      (parseNat s = some lo → lo ≤ hi → validate_timestamp s (lo, hi) = .ok ()) ∧
      (parseNat s = some hi → lo ≤ hi → validate_timestamp s (lo, hi) = .ok ()) := by
  intro s lo hi
  refine ⟨?_, ?_, ?_, ?_⟩
  · unfold validate_timestamp
    cases hp : parseNat s with
    | none => simp [hp]
    | some t =>
      simp only [hp]
      by_cases hb : lo ≤ t ∧ t ≤ hi
      · simp [hb]
      · simp only [hb, if_false]
        constructor
        · intro hc; exact absurd hc (by simp)
        · rintro ⟨u, hu, h1, h2⟩
          cases hu
          exact absurd ⟨h1, h2⟩ hb
  · unfold validate_timestamp
    cases parseNat s with
    | none => exact Or.inr rfl
    | some t =>
      by_cases hb : lo ≤ t ∧ t ≤ hi
      · exact Or.inl (by simp [hb])
      · exact Or.inr (by simp [hb])
  · intro hp hlh
    unfold validate_timestamp
    rw [hp]
    simp [Nat.le_refl, hlh]
  · intro hp hlh
    unfold validate_timestamp
    rw [hp]
    simp [Nat.le_refl, hlh]

/-- Witness for C5: timestamps `10` and `15` are accepted at the inclusive
endpoints of the bounds from 10 to 15. -/
theorem timestamp_validator_contract_witness :
    validate_timestamp "10" (10, 15) = .ok () ∧
    validate_timestamp "15" (10, 15) = .ok () :=
  ⟨(timestamp_validator_contract "10" 10 15).2.2.1 (by decide) (by decide),
   (timestamp_validator_contract "15" 10 15).2.2.2 (by decide) (by decide)⟩

/-- C8: the header accessor returns the header value with the required
leading literal stripped when the header is present and starts with it;
fails with `MissingHeader` when the header is absent; fails with
`InvalidHeader` when the header is present but does not start with the
required literal; and the underlying lookup is ASCII-case-insensitive and
takes the first value when several headers share the name. -/
theorem header_accessor_contract :
    (∀ (headers : Headers) (name : String) (pre : Option String),
      getOne headers name = none →
      get_header headers name pre = .error (400, .missingHeader name)) ∧
    (∀ (headers : Headers) (name v : String),
      getOne headers name = some v →
      get_header headers name none = .ok v) ∧
    (∀ (headers : Headers) (name v p : String),
      getOne headers name = some v →
      p.data.isPrefixOf v.data = true →
      get_header headers name (some p) = .ok ⟨v.data.drop p.data.length⟩) ∧
    (∀ (headers : Headers) (name v p : String),
      getOne headers name = some v →
      p.data.isPrefixOf v.data = false →
      get_header headers name (some p) = .error (400, .invalidHeader name)) ∧
    (∀ (n v : String) (rest : Headers) (name : String),
      nameEq n name = true →
      getOne ((n, v) :: rest) name = some v) ∧
    (∀ (n v : String) (rest : Headers) (name : String),
      nameEq n name = false →
      getOne ((n, v) :: rest) name = getOne rest name) := by
  refine ⟨?_, ?_, ?_, ?_, ?_, ?_⟩
  · intro headers name pre h
    exact get_header_none h
  · intro headers name v h
    exact get_header_some h
  · intro headers name v p h hp
    unfold get_header stripPre
    simp [h, hp]
  · intro headers name v p h hp
    unfold get_header stripPre
    simp [h, hp]
  · intro n v rest name h
    unfold getOne
    simp [List.find?, h]
  · intro n v rest name h
    unfold getOne
    simp [List.find?, h]

/-- Witness for C8: a concrete two-entry header map under a differently
cased name: the first value wins, the literal `v0=` is stripped, a wrong
literal yields `InvalidHeader`, an absent name yields `MissingHeader`. -/
theorem header_accessor_contract_witness :
    get_header [("X-Foo", "v0=a"), ("x-foo", "v0=b")] "x-FOO" (some "v0=") = .ok "a" ∧
    get_header [("X-Foo", "v0=a")] "x-foo" (some "v1=") =
      .error (400, .invalidHeader "x-foo") ∧
    get_header [("X-Foo", "v0=a")] "x-bar" none =
      .error (400, .missingHeader "x-bar") ∧
    getOne [("X-Foo", "1"), ("x-foo", "2")] "x-FOO" = some "1" :=
  ⟨header_accessor_contract.2.2.1 [("X-Foo", "v0=a"), ("x-foo", "v0=b")]
      "x-FOO" "v0=a" "v0=" (by decide) (by decide),
   header_accessor_contract.2.2.2.1 [("X-Foo", "v0=a")] "x-foo" "v0=a" "v1="
      (by decide) (by decide),
   header_accessor_contract.1 [("X-Foo", "v0=a")] "x-bar" none (by decide),
   header_accessor_contract.2.2.2.2.1 "X-Foo" "1" [("x-foo", "2")] "x-FOO" (by decide)⟩

/-- C6: for every built-in provider, a request lacking a required header
(the signature header, or the timestamp or id header where the provider
needs one) fails with a `MissingHeader` error before any cryptographic work:
the stated outcome holds for every MAC function `mac` and every public-key
checker `verify`, so the failure is computed without consulting the
cryptographic primitive. -/
theorem missing_header_fails_before_crypto :
    (∀ (mac : List Nat → List Nat → List Nat) (sk : List Nat) (headers : Headers)
        (body : List Chunk) (tb : Nat × Nat),
      getOne headers "X-Hub-Signature-256" = none →
      validate_with_hmac mac (GitHubWebhook sk) headers body tb =
        .error (400, .missingHeader "X-Hub-Signature-256")) ∧
    (∀ (mac : List Nat → List Nat → List Nat) (sk : List Nat) (headers : Headers)
        (body : List Chunk) (tb : Nat × Nat),
      getOne headers "X-Shopify-Hmac-Sha256" = none →
      validate_with_hmac mac (ShopifyWebhook sk) headers body tb =
        .error (400, .missingHeader "X-Shopify-Hmac-Sha256")) ∧
    (∀ (mac : List Nat → List Nat → List Nat) (sk : List Nat) (headers : Headers)
        (body : List Chunk) (tb : Nat × Nat),
      getOne headers "X-Slack-Signature" = none →
      validate_with_hmac mac (SlackWebhook sk) headers body tb =
        .error (400, .missingHeader "X-Slack-Signature")) ∧
    (∀ (mac : List Nat → List Nat → List Nat) (sk : List Nat) (headers : Headers)
        (body : List Chunk) (tb : Nat × Nat),
      getOne headers "Stripe-Signature" = none →
      validate_with_hmac mac (StripeWebhook sk) headers body tb =
        .error (400, .missingHeader "Stripe-Signature")) ∧
    (∀ (mac : List Nat → List Nat → List Nat) (sk : List Nat) (headers : Headers)
        (body : List Chunk) (tb : Nat × Nat),
      getOne headers "svix-signature" = none →
      validate_with_hmac mac (SvixWebhook sk) headers body tb =
        .error (400, .missingHeader "svix-signature")) ∧
    (∀ (cfg : StandardConfig) (mac : List Nat → List Nat → List Nat) (sk : List Nat)
        (headers : Headers) (body : List Chunk) (tb : Nat × Nat),
      getOne headers cfg.sig_header = none →
      validate_with_hmac mac (StandardWebhook sk cfg) headers body tb =
        .error (400, .missingHeader cfg.sig_header)) ∧
    (∀ (mac : List Nat → List Nat → List Nat) (sk : List Nat) (headers : Headers)
        (body : List Chunk) (tb : Nat × Nat) (sigs : List (List Nat)),
      (SlackWebhook sk).expected_signatures headers = .ok sigs →
      getOne headers "X-Slack-Request-Timestamp" = none →
      validate_with_hmac mac (SlackWebhook sk) headers body tb =
        .error (400, .missingHeader "X-Slack-Request-Timestamp")) ∧
    (∀ (mac : List Nat → List Nat → List Nat) (sk : List Nat) (headers : Headers)
        (body : List Chunk) (tb : Nat × Nat) (sigs : List (List Nat)),
      (SvixWebhook sk).expected_signatures headers = .ok sigs →
      getOne headers "svix-id" = none →
      validate_with_hmac mac (SvixWebhook sk) headers body tb =
        .error (400, .missingHeader "svix-id")) ∧
    (∀ (mac : List Nat → List Nat → List Nat) (sk : List Nat) (headers : Headers)
        (body : List Chunk) (tb : Nat × Nat) (sigs : List (List Nat)) (id : String),
      (SvixWebhook sk).expected_signatures headers = .ok sigs →
      getOne headers "svix-id" = some id →
      getOne headers "svix-timestamp" = none →
      validate_with_hmac mac (SvixWebhook sk) headers body tb =
        .error (400, .missingHeader "svix-timestamp")) ∧
    (∀ (cfg : StandardConfig) (mac : List Nat → List Nat → List Nat) (sk : List Nat)
        (headers : Headers) (body : List Chunk) (tb : Nat × Nat)
        (sigs : List (List Nat)),
      (StandardWebhook sk cfg).expected_signatures headers = .ok sigs →
      getOne headers cfg.id_header = none →
      validate_with_hmac mac (StandardWebhook sk cfg) headers body tb =
        .error (400, .missingHeader cfg.id_header)) ∧
    (∀ (verify : List Nat → List Nat → List Nat → Bool) (key : List Nat)
        (headers : Headers) (body : List Chunk) (tb : Nat × Nat),
      getOne headers "X-Signature-Ed25519" = none →
      validate_with_public_key verify (DiscordWebhook key) headers body tb =
        .error (400, .missingHeader "X-Signature-Ed25519")) ∧
    (∀ (verify : List Nat → List Nat → List Nat → Bool) (key : List Nat)
        (headers : Headers) (body : List Chunk) (tb : Nat × Nat)
        (sig raw : List Nat),
      (DiscordWebhook key).expected_signature headers = .ok sig →
      read_chunks body = .ok raw →
      getOne headers "X-Signature-Timestamp" = none →
      validate_with_public_key verify (DiscordWebhook key) headers body tb =
        .error (400, .missingHeader "X-Signature-Timestamp")) ∧
    (∀ (verify : List Nat → List Nat → List Nat → Bool) (key : List Nat)
        (headers : Headers) (body : List Chunk) (tb : Nat × Nat),
      getOne headers "X-Twilio-Email-Event-Webhook-Signature" = none →
      validate_with_public_key verify (SendGridWebhook key) headers body tb =
        .error (400, .missingHeader "X-Twilio-Email-Event-Webhook-Signature")) ∧
    (∀ (verify : List Nat → List Nat → List Nat → Bool) (key : List Nat)
        (headers : Headers) (body : List Chunk) (tb : Nat × Nat)
        (sig raw : List Nat),
      (SendGridWebhook key).expected_signature headers = .ok sig →
      read_chunks body = .ok raw →
      getOne headers "X-Twilio-Email-Event-Webhook-Timestamp" = none →
      validate_with_public_key verify (SendGridWebhook key) headers body tb =
        .error (400, .missingHeader "X-Twilio-Email-Event-Webhook-Timestamp")) := by
  refine ⟨?_, ?_, ?_, ?_, ?_, ?_, ?_, ?_, ?_, ?_, ?_, ?_, ?_, ?_⟩
  · intro mac sk headers body tb h
    apply validate_hmac_sig_err
    show github_expected_signatures headers = _
    unfold github_expected_signatures
    simp only [get_header_none h]
  · intro mac sk headers body tb h
    apply validate_hmac_sig_err
    show shopify_expected_signatures headers = _
    unfold shopify_expected_signatures
    simp only [get_header_none h]
  · intro mac sk headers body tb h
    apply validate_hmac_sig_err
    show slack_expected_signatures headers = _
    unfold slack_expected_signatures
    simp only [get_header_none h]
  · intro mac sk headers body tb h
    apply validate_hmac_sig_err
    show stripe_expected_signatures headers = _
    unfold stripe_expected_signatures
    simp only [get_header_none h]
  · intro mac sk headers body tb h
    apply validate_hmac_sig_err
    show svix_expected_signatures headers = _
    unfold svix_expected_signatures
    simp only [get_header_none h]
  · intro cfg mac sk headers body tb h
    apply validate_hmac_sig_err
    show standard_expected_signatures cfg headers = _
    unfold standard_expected_signatures
    simp only [get_header_none h]
  · intro mac sk headers body tb sigs hsig hts
    apply validate_hmac_pre_err hsig
    show slack_body_pre headers tb = _
    unfold slack_body_pre
    simp only [get_header_none hts]
  · intro mac sk headers body tb sigs hsig hid
    apply validate_hmac_pre_err hsig
    show svix_body_pre headers tb = _
    unfold svix_body_pre
    simp only [get_header_none hid]
  · intro mac sk headers body tb sigs id hsig hid hts
    apply validate_hmac_pre_err hsig
    show svix_body_pre headers tb = _
    unfold svix_body_pre
    simp only [get_header_some hid, get_header_none hts]
  · intro cfg mac sk headers body tb sigs hsig hid
    apply validate_hmac_pre_err hsig
    show standard_body_pre cfg headers tb = _
    unfold standard_body_pre
    simp only [get_header_none hid]
  · intro verify key headers body tb h
    apply validate_pk_sig_err
    show discord_expected_signature headers = _
    unfold discord_expected_signature
    simp only [get_header_none h]
  · intro verify key headers body tb sig raw hsig hread hts
    have hmsg : (DiscordWebhook key).message_to_verify headers raw tb =
        .error (400, .missingHeader "X-Signature-Timestamp") := by
      show discord_message_to_verify headers raw tb = _
      unfold discord_message_to_verify
      simp only [get_header_none hts]
    exact validate_pk_msg_err hsig rfl hread hmsg
  · intro verify key headers body tb h
    apply validate_pk_sig_err
    show sendgrid_expected_signature headers = _
    unfold sendgrid_expected_signature
    simp only [get_header_none h]
  · intro verify key headers body tb sig raw hsig hread hts
    have hmsg : (SendGridWebhook key).message_to_verify headers raw tb =
        .error (400, .missingHeader "X-Twilio-Email-Event-Webhook-Timestamp") := by
      show sendgrid_message_to_verify headers raw tb = _
      unfold sendgrid_message_to_verify
      simp only [get_header_none hts]
    exact validate_pk_msg_err hsig rfl hread hmsg

/-- Witness for C6: a GitHub request with no headers at all, and a Slack
request carrying a valid signature header but no timestamp header, both fail
with the respective `MissingHeader` error. -/
theorem missing_header_fails_before_crypto_witness :
    validate_with_hmac (fun _ _ => [1, 2]) (GitHubWebhook [9]) [] [.ok [104]] (0, 10) =
      .error (400, .missingHeader "X-Hub-Signature-256") ∧
    validate_with_hmac (fun _ _ => [1, 2]) (SlackWebhook [9])
        [("X-Slack-Signature", "v0=0102")] [.ok [104]] (0, 10) =
      .error (400, .missingHeader "X-Slack-Request-Timestamp") :=
  ⟨missing_header_fails_before_crypto.1 (fun _ _ => [1, 2]) [9] [] [.ok [104]]
      (0, 10) (by decide),
   missing_header_fails_before_crypto.2.2.2.2.2.2.1 (fun _ _ => [1, 2]) [9]
      [("X-Slack-Signature", "v0=0102")] [.ok [104]] (0, 10) [[1, 2]]
      (by decide) (by decide)⟩

/-- C7: a read error at any chunk of the body stream is fatal for both
verifiers: the outcome is never a success, and once the provider hooks have
succeeded the outcome is exactly the `Read` error, regardless of signature
correctness; moreover a read error surfacing after earlier successful chunks
is still the stream's error. -/
theorem read_error_is_never_accepted :
    (∀ (c : List Nat) (body : List Chunk) (e : String),
      read_chunks body = .error e → read_chunks (.ok c :: body) = .error e) ∧
    (∀ (mac : List Nat → List Nat → List Nat) (w : HmacWebhook)
        (headers : Headers) (body : List Chunk) (tb : Nat × Nat) (e : String),
      read_chunks body = .error e →
      (∀ r, validate_with_hmac mac w headers body tb ≠ .ok r) ∧
      (∀ (sigs : List (List Nat)) (preOpt : Option (List Nat)),
        w.expected_signatures headers = .ok sigs →
        w.body_pre headers tb = .ok preOpt →
        validate_with_hmac mac w headers body tb = .error (400, .read e))) ∧
    (∀ (verify : List Nat → List Nat → List Nat → Bool) (w : PublicKeyWebhook)
        (headers : Headers) (body : List Chunk) (tb : Nat × Nat) (e : String),
      read_chunks body = .error e →
      (∀ r, validate_with_public_key verify w headers body tb ≠ .ok r) ∧
      (∀ (sig key : List Nat),
        w.expected_signature headers = .ok sig →
        w.public_key headers = .ok key →
        validate_with_public_key verify w headers body tb = .error (400, .read e))) := by
  refine ⟨?_, ?_, ?_⟩
  · intro c body e h
    unfold read_chunks
    rw [h]
  · intro mac w headers body tb e h
    constructor
    · intro r hc
      have hr := validate_hmac_ok_reads hc
      rw [h] at hr
      cases hr
    · intro sigs preOpt hsig hpre
      exact validate_hmac_read_err hsig hpre h
  · intro verify w headers body tb e h
    constructor
    · intro r hc
      have hr := validate_pk_ok_reads hc
      rw [h] at hr
      cases hr
    · intro sig key hsig hkey
      exact validate_pk_read_err hsig hkey h

/-- Witness for C7: a Stripe request whose second chunk fails with read
error `eof` after a successful first chunk yields exactly the `Read` error. -/
theorem read_error_is_never_accepted_witness :
    read_chunks [Except.ok ([104] : List Nat), Except.error "eof"] = .error "eof" ∧
    validate_with_hmac (fun _ _ => [1, 2]) (StripeWebhook [9])
        [("Stripe-Signature", "t=5,v1=0102")] [.ok [104], .error "eof"] (0, 10) =
      .error (400, .read "eof") :=
  ⟨read_error_is_never_accepted.1 [104] [Except.error "eof"] "eof" (by decide),
   (read_error_is_never_accepted.2.1 (fun _ _ => [1, 2]) (StripeWebhook [9])
      [("Stripe-Signature", "t=5,v1=0102")] [.ok [104], .error "eof"] (0, 10) "eof"
      (by decide)).2 [[1, 2]] (some [53, 46]) (by decide) (by decide)⟩

/-- C10: for a multi-signature provider whose signature header is present
but contains zero versioned candidates, signature extraction succeeds with
the empty candidate set; verification then can never succeed, and once the
message-prefix construction and the whole body read have succeeded it fails
with exactly the `Signature` error (so never `MissingHeader` or
`InvalidHeader`). -/
theorem empty_candidate_set_always_fails :
    (∀ (headers : Headers) (hdr : String),
      getOne headers "Stripe-Signature" = some hdr →
      (splitStr hdr ',').filterMap (fun s => stripPre s "v1=") = [] →
      stripe_expected_signatures headers = .ok []) ∧
    (∀ (headers : Headers) (hdr : String),
      getOne headers "svix-signature" = some hdr →
      (splitStr hdr ' ').filterMap (fun s => stripPre s "v1,") = [] →
      svix_expected_signatures headers = .ok []) ∧
    (∀ (cfg : StandardConfig) (headers : Headers) (hdr : String),
      getOne headers cfg.sig_header = some hdr →
      (splitStr hdr ' ').filterMap (fun s => stripPre s "v1,") = [] →
      standard_expected_signatures cfg headers = .ok []) ∧
    (∀ (mac : List Nat → List Nat → List Nat) (w : HmacWebhook)
        (headers : Headers) (body : List Chunk) (tb : Nat × Nat),
      w.expected_signatures headers = .ok [] →
      (∀ r, validate_with_hmac mac w headers body tb ≠ .ok r) ∧
      (∀ (preOpt : Option (List Nat)) (raw : List Nat),
        w.body_pre headers tb = .ok preOpt →
        read_chunks body = .ok raw →
        validate_with_hmac mac w headers body tb =
          .error (401, .signature "HMAC did not match any provided signature"))) := by
  refine ⟨?_, ?_, ?_, ?_⟩
  · intro headers hdr hhdr hempty
    unfold stripe_expected_signatures
    simp only [get_header_some hhdr, hempty]
    rfl
  · intro headers hdr hhdr hempty
    unfold svix_expected_signatures
    simp only [get_header_some hhdr, hempty]
    rfl
  · intro cfg headers hdr hhdr hempty
    unfold standard_expected_signatures
    simp only [get_header_some hhdr, hempty]
    rfl
  · intro mac w headers body tb hsig
    constructor
    · intro r hc
      unfold validate_with_hmac at hc
      simp only [hsig] at hc
      split at hc
      · exact absurd hc (by simp)
      · split at hc
        · exact absurd hc (by simp)
        · simp at hc
    · intro preOpt raw hpre hread
      exact validate_hmac_nomatch hsig hpre hread (by simp)

/-- Witness for C10: a `Stripe-Signature` header holding only `t=5` yields
the empty candidate set and the request then fails with the `Signature`
error after the body has been read. -/
theorem empty_candidate_set_always_fails_witness :
    stripe_expected_signatures [("Stripe-Signature", "t=5")] = .ok [] ∧
    validate_with_hmac (fun _ _ => [1, 2]) (StripeWebhook [9])
        [("Stripe-Signature", "t=5")] [.ok [104]] (0, 10) =
      .error (401, .signature "HMAC did not match any provided signature") :=
  ⟨empty_candidate_set_always_fails.1 [("Stripe-Signature", "t=5")] "t=5"
      (by decide) (by decide),
   (empty_candidate_set_always_fails.2.2.2 (fun _ _ => [1, 2]) (StripeWebhook [9])
      [("Stripe-Signature", "t=5")] [.ok [104]] (0, 10) (by decide)).2
      (some [53, 46]) [104] (by decide) (by decide)⟩

theorem validate_hmac_err_classify {mac : List Nat → List Nat → List Nat}
    {w : HmacWebhook} {headers : Headers} {body : List Chunk} {tb : Nat × Nat}
    {st : Nat} {e : WebhookError} (hb : benignHooks w)
    (h : validate_with_hmac mac w headers body tb = .error (st, e)) :
    (st = 401 ∧ isSig e = true) ∨ (st = 400 ∧ isSig e = false) := by
  unfold validate_with_hmac at h
  split at h
  · rename_i p heq
    cases h
    exact Or.inr (hb.1 _ _ _ heq)
  · split at h
    · rename_i p heq
      cases h
      exact Or.inr (hb.2 _ _ _ _ heq)
    · split at h
      · cases h
        exact Or.inr ⟨rfl, rfl⟩
      · split at h
        · exact absurd h (by simp)
        · cases h
          exact Or.inl ⟨rfl, rfl⟩

theorem validate_pk_err_classify {verify : List Nat → List Nat → List Nat → Bool}
    {w : PublicKeyWebhook} {headers : Headers} {body : List Chunk} {tb : Nat × Nat}
    {st : Nat} {e : WebhookError} (hb : benignPkHooks w)
    (h : validate_with_public_key verify w headers body tb = .error (st, e)) :
    (st = 401 ∧ isSig e = true) ∨ (st = 400 ∧ isSig e = false) := by
  unfold validate_with_public_key at h
  split at h
  · rename_i p heq
    cases h
    exact Or.inr (hb.1 _ _ _ heq)
  · split at h
    · rename_i p heq
      cases h
      exact Or.inr (hb.2.1 _ _ _ heq)
    · split at h
      · cases h
        exact Or.inr ⟨rfl, rfl⟩
      · split at h
        · rename_i p heq
          cases h
          exact Or.inr (hb.2.2 _ _ _ _ _ heq)
        · split at h
          · exact absurd h (by simp)
          · cases h
            exact Or.inl ⟨rfl, rfl⟩

theorem benign_github (sk : List Nat) : benignHooks (GitHubWebhook sk) := by
  constructor
  · intro headers st e h
    replace h : github_expected_signatures headers = .error (st, e) := h
    unfold github_expected_signatures at h
    split at h
    · rename_i p heq
      cases h
      obtain ⟨h400, hk⟩ := get_header_err heq
      subst h400
      rcases hk with rfl | rfl <;> exact ⟨rfl, rfl⟩
    · split at h
      · exact absurd h (by simp)
      · cases h
        exact ⟨rfl, rfl⟩
  · intro headers tb st e h
    exact absurd h (by simp [GitHubWebhook])

theorem benign_shopify (sk : List Nat) : benignHooks (ShopifyWebhook sk) := by
  constructor
  · intro headers st e h
    replace h : shopify_expected_signatures headers = .error (st, e) := h
    unfold shopify_expected_signatures at h
    split at h
    · rename_i p heq
      cases h
      obtain ⟨h400, hk⟩ := get_header_err heq
      subst h400
      rcases hk with rfl | rfl <;> exact ⟨rfl, rfl⟩
    · split at h
      · exact absurd h (by simp)
      · cases h
        exact ⟨rfl, rfl⟩
  · intro headers tb st e h
    exact absurd h (by simp [ShopifyWebhook])

theorem benign_slack (sk : List Nat) : benignHooks (SlackWebhook sk) := by
  constructor
  · intro headers st e h
    replace h : slack_expected_signatures headers = .error (st, e) := h
    unfold slack_expected_signatures at h
    split at h
    · rename_i p heq
      cases h
      obtain ⟨h400, hk⟩ := get_header_err heq
      subst h400
      rcases hk with rfl | rfl <;> exact ⟨rfl, rfl⟩
    · split at h
      · exact absurd h (by simp)
      · cases h
        exact ⟨rfl, rfl⟩
  · intro headers tb st e h
    replace h : slack_body_pre headers tb = .error (st, e) := h
    unfold slack_body_pre at h
    split at h
    · rename_i p heq
      cases h
      obtain ⟨h400, hk⟩ := get_header_err heq
      subst h400
      rcases hk with rfl | rfl <;> exact ⟨rfl, rfl⟩
    · split at h
      · rename_i p heq
        cases h
        obtain ⟨h400, rfl⟩ := validate_timestamp_err heq
        subst h400
        exact ⟨rfl, rfl⟩
      · exact absurd h (by simp)

theorem benign_stripe (sk : List Nat) : benignHooks (StripeWebhook sk) := by
  constructor
  · intro headers st e h
    replace h : stripe_expected_signatures headers = .error (st, e) := h
    unfold stripe_expected_signatures at h
    split at h
    · rename_i p heq
      cases h
      obtain ⟨h400, hk⟩ := get_header_err heq
      subst h400
      rcases hk with rfl | rfl <;> exact ⟨rfl, rfl⟩
    · obtain ⟨h400, rfl⟩ := decode_candidates_err h
      subst h400
      exact ⟨rfl, rfl⟩
  · intro headers tb st e h
    replace h : stripe_body_pre headers tb = .error (st, e) := h
    unfold stripe_body_pre at h
    split at h
    · rename_i p heq
      cases h
      obtain ⟨h400, hk⟩ := get_header_err heq
      subst h400
      rcases hk with rfl | rfl <;> exact ⟨rfl, rfl⟩
    · split at h
      · cases h
        exact ⟨rfl, rfl⟩
      · split at h
        · rename_i p heq
          cases h
          obtain ⟨h400, rfl⟩ := validate_timestamp_err heq
          subst h400
          exact ⟨rfl, rfl⟩
        · exact absurd h (by simp)

theorem benign_svix (sk : List Nat) : benignHooks (SvixWebhook sk) := by
  constructor
  · intro headers st e h
    replace h : svix_expected_signatures headers = .error (st, e) := h
    unfold svix_expected_signatures at h
    split at h
    · rename_i p heq
      cases h
      obtain ⟨h400, hk⟩ := get_header_err heq
      subst h400
      rcases hk with rfl | rfl <;> exact ⟨rfl, rfl⟩
    · obtain ⟨h400, rfl⟩ := decode_candidates_err h
      subst h400
      exact ⟨rfl, rfl⟩
  · intro headers tb st e h
    replace h : svix_body_pre headers tb = .error (st, e) := h
    unfold svix_body_pre at h
    split at h
    · rename_i p heq
      cases h
      obtain ⟨h400, hk⟩ := get_header_err heq
      subst h400
      rcases hk with rfl | rfl <;> exact ⟨rfl, rfl⟩
    · split at h
      · rename_i p heq
        cases h
        obtain ⟨h400, hk⟩ := get_header_err heq
        subst h400
        rcases hk with rfl | rfl <;> exact ⟨rfl, rfl⟩
      · split at h
        · rename_i p heq
          cases h
          obtain ⟨h400, rfl⟩ := validate_timestamp_err heq
          subst h400
          exact ⟨rfl, rfl⟩
        · exact absurd h (by simp)

theorem benign_standard (sk : List Nat) (cfg : StandardConfig) :
    benignHooks (StandardWebhook sk cfg) := by
  constructor
  · intro headers st e h
    replace h : standard_expected_signatures cfg headers = .error (st, e) := h
    unfold standard_expected_signatures at h
    split at h
    · rename_i p heq
      cases h
      obtain ⟨h400, hk⟩ := get_header_err heq
      subst h400
      rcases hk with rfl | rfl <;> exact ⟨rfl, rfl⟩
    · obtain ⟨h400, rfl⟩ := decode_candidates_err h
      subst h400
      exact ⟨rfl, rfl⟩
  · intro headers tb st e h
    replace h : standard_body_pre cfg headers tb = .error (st, e) := h
    unfold standard_body_pre at h
    split at h
    · rename_i p heq
      cases h
      obtain ⟨h400, hk⟩ := get_header_err heq
      subst h400
      rcases hk with rfl | rfl <;> exact ⟨rfl, rfl⟩
    · split at h
      · rename_i p heq
        cases h
        obtain ⟨h400, hk⟩ := get_header_err heq
        subst h400
        rcases hk with rfl | rfl <;> exact ⟨rfl, rfl⟩
      · split at h
        · rename_i p heq
          cases h
          obtain ⟨h400, rfl⟩ := validate_timestamp_err heq
          subst h400
          exact ⟨rfl, rfl⟩
        · exact absurd h (by simp)

theorem benign_discord (key : List Nat) : benignPkHooks (DiscordWebhook key) := by
  refine ⟨?_, ?_, ?_⟩
  · intro headers st e h
    replace h : discord_expected_signature headers = .error (st, e) := h
    unfold discord_expected_signature at h
    split at h
    · rename_i p heq
      cases h
      obtain ⟨h400, hk⟩ := get_header_err heq
      subst h400
      rcases hk with rfl | rfl <;> exact ⟨rfl, rfl⟩
    · split at h
      · exact absurd h (by simp)
      · cases h
        exact ⟨rfl, rfl⟩
  · intro headers st e h
    exact absurd h (by simp [DiscordWebhook])
  · intro headers raw tb st e h
    replace h : discord_message_to_verify headers raw tb = .error (st, e) := h
    unfold discord_message_to_verify at h
    split at h
    · rename_i p heq
      cases h
      obtain ⟨h400, hk⟩ := get_header_err heq
      subst h400
      rcases hk with rfl | rfl <;> exact ⟨rfl, rfl⟩
    · split at h
      · rename_i p heq
        cases h
        obtain ⟨h400, rfl⟩ := validate_timestamp_err heq
        subst h400
        exact ⟨rfl, rfl⟩
      · exact absurd h (by simp)

theorem benign_sendgrid (key : List Nat) : benignPkHooks (SendGridWebhook key) := by
  refine ⟨?_, ?_, ?_⟩
  · intro headers st e h
    replace h : sendgrid_expected_signature headers = .error (st, e) := h
    unfold sendgrid_expected_signature at h
    split at h
    · rename_i p heq
      cases h
      obtain ⟨h400, hk⟩ := get_header_err heq
      subst h400
      rcases hk with rfl | rfl <;> exact ⟨rfl, rfl⟩
    · split at h
      · exact absurd h (by simp)
      · cases h
        exact ⟨rfl, rfl⟩
  · intro headers st e h
    exact absurd h (by simp [SendGridWebhook])
  · intro headers raw tb st e h
    replace h : sendgrid_message_to_verify headers raw tb = .error (st, e) := h
    unfold sendgrid_message_to_verify at h
    split at h
    · rename_i p heq
      cases h
      obtain ⟨h400, hk⟩ := get_header_err heq
      subst h400
      rcases hk with rfl | rfl <;> exact ⟨rfl, rfl⟩
    · exact absurd h (by simp)

/-- C9: failures are mapped to HTTP statuses by error kind.  For every
built-in provider both hooks only produce 400-paired non-`Signature` errors
(`benignHooks`); consequently every failing verification carries status 401
exactly when its error is the `Signature` kind (the failed cryptographic
check) and status 400 otherwise (missing or invalid header, timestamp, body
read) — so a `Signature` failure is never reported with a 400-class status.
The data-guard wrapper also maps deserialization failure to 400. -/
theorem status_mapping_by_error_kind :
    (∀ sk : List Nat,
      benignHooks (GitHubWebhook sk) ∧ benignHooks (ShopifyWebhook sk) ∧
      benignHooks (SlackWebhook sk) ∧ benignHooks (StripeWebhook sk) ∧
      benignHooks (SvixWebhook sk) ∧
      ∀ cfg : StandardConfig, benignHooks (StandardWebhook sk cfg)) ∧
    (∀ key : List Nat,
      benignPkHooks (DiscordWebhook key) ∧ benignPkHooks (SendGridWebhook key)) ∧
    (∀ (mac : List Nat → List Nat → List Nat) (w : HmacWebhook)
        (headers : Headers) (body : List Chunk) (tb : Nat × Nat)
        (st : Nat) (e : WebhookError),
      benignHooks w →
      validate_with_hmac mac w headers body tb = .error (st, e) →
      (st = 401 ∧ isSig e = true) ∨ (st = 400 ∧ isSig e = false)) ∧
    (∀ (verify : List Nat → List Nat → List Nat → Bool) (w : PublicKeyWebhook)
        (headers : Headers) (body : List Chunk) (tb : Nat × Nat)
        (st : Nat) (e : WebhookError),
      benignPkHooks w →
      validate_with_public_key verify w headers body tb = .error (st, e) →
      (st = 401 ∧ isSig e = true) ∨ (st = 400 ∧ isSig e = false)) ∧
    (∀ (α : Type) (deser : List Nat → Option α)
        (mac : List Nat → List Nat → List Nat) (w : HmacWebhook)
        (headers : Headers) (body : List Chunk) (tb : Nat × Nat)
        (st : Nat) (e : WebhookError),
      benignHooks w →
      payload_from_data mac w headers body tb deser = .error (st, e) →
      (st = 401 ∧ isSig e = true) ∨ (st = 400 ∧ isSig e = false)) := by
  refine ⟨?_, ?_, ?_, ?_, ?_⟩
  · intro sk
    exact ⟨benign_github sk, benign_shopify sk, benign_slack sk, benign_stripe sk,
      benign_svix sk, benign_standard sk⟩
  · intro key
    exact ⟨benign_discord key, benign_sendgrid key⟩
  · intro mac w headers body tb st e hb h
    exact validate_hmac_err_classify hb h
  · intro verify w headers body tb st e hb h
    exact validate_pk_err_classify hb h
  · intro α deser mac w headers body tb st e hb h
    unfold payload_from_data at h
    split at h
    · rename_i p heq
      cases h
      exact validate_hmac_err_classify hb heq
    · split at h
      · exact absurd h (by simp)
      · cases h
        exact Or.inr ⟨rfl, rfl⟩

/-- Witness for C9: the Stripe signature-mismatch failure is classified as
status 401 with a `Signature`-kind error. -/
theorem status_mapping_by_error_kind_witness :
    (401 = 401 ∧
      isSig (.signature "HMAC did not match any provided signature") = true) ∨
    (401 = 400 ∧
      isSig (.signature "HMAC did not match any provided signature") = false) :=
  status_mapping_by_error_kind.2.2.1 (fun _ _ => [7]) (StripeWebhook [9])
    [("Stripe-Signature", "t=5,v1=0102")] [.ok [104]] (0, 10) 401
    (.signature "HMAC did not match any provided signature")
    ((status_mapping_by_error_kind.1 [9]).2.2.2.1) (by decide)


end RocketWebhook
